import Mathlib

/-!
Verification of the GCC cost calculator (`calculate_costs` in `app.py`).

The calculator consumes two city cost tables (real estate, IT infrastructure),
a table of plan brackets, and a request (headcount, city, plan name, four
boolean toggles).  It produces a cost breakdown and an hourly per-head rate,
or fails.  The Python function computes inside a `try:` block; any exception
(the `IndexError` of a failed city lookup, the `ZeroDivisionError` of a zero
headcount) is caught and, like the explicit no-matching-bracket branch,
turned into the all-`None` failure tuple.  We embed the body of the `try:`
block as a computation in `Except CalcError` and the surrounding
`try/except` as `Except.toOption`: a caller observes `Option CostResult`.
Python float arithmetic is modelled over `ℚ`.
-/

set_option autoImplicit false

namespace GCCCal

/-- A row of the `Real_Estate` or `IT_Infra` sheet: tier name, city name and
monthly cost per seat (`Cost_INR_PM`). -/
structure CostTableRow where
  tier : String
  city : String
  cost_INR_PM : ℚ
  deriving DecidableEq, Repr

/-- A row of the `Plans` sheet: a headcount bracket `[MinHC, MaxHC]` with the
six flat plan costs (`Enab_*`, `Tech_*`). -/
structure PlanBracket where
  minHC : ℤ
  maxHC : ℤ
  enab_Basic : ℚ
  enab_Premium : ℚ
  enab_Advance : ℚ
  tech_Basic : ℚ
  tech_Premium : ℚ
  tech_Advance : ℚ
  deriving DecidableEq, Repr

/-- The ways the body of `calculate_costs` can fail, all of which the outer
`except Exception` converts to the `None` tuple:
the `IndexError` (a Python `LookupError`) raised by
`df[df["City"] == city]["Cost_INR_PM"].values[0]` on a city absent from the
table, the explicit `plan_row is None` early return for a headcount outside
every bracket, and the `ZeroDivisionError` of `total_cost / headcount` at
headcount 0. -/
inductive CalcError where
  | lookupError (category : String) (city : String)
  | noMatchingBracket (headcount : ℤ)
  | divisionByZero
  deriving DecidableEq, Repr

/-- The six-tuple returned by `calculate_costs` on success. -/
structure CostResult where
  total_real_estate_cost : ℚ
  total_it_infra_cost : ℚ
  enab_cost : ℚ
  tech_cost : ℚ
  total_cost : ℚ
  hourly_cost_per_head_usd : ℚ
  deriving DecidableEq, Repr

/-- `df[df["City"] == selected_city]["Cost_INR_PM"].values[0]`: filter the
table to the rows whose `City` equals the requested city (the `Tier` column
plays no part), and take the cost of the first such row; `none` models the
`IndexError` on an empty filter result. -/
def lookupCity (df : List CostTableRow) (selected_city : String) : Option ℚ :=
  match df.filter (fun row => row.city = selected_city) with
  | [] => none
  | row :: _ => some row.cost_INR_PM

/-- The `for index, row in plans_df.iterrows(): ... break` loop: scan the
brackets in table order and stop at the first one whose
`MinHC <= headcount <= MaxHC`. -/
def findBracket (plans_df : List PlanBracket) (headcount : ℤ) : Option PlanBracket :=
  match plans_df with
  | [] => none
  | row :: rest =>
      if row.minHC ≤ headcount ∧ headcount ≤ row.maxHC then some row
      else findBracket rest headcount

/-- The enabling-functions cost chain:
`if selected_plan == "Basic": ... elif selected_plan == "Premium": ...
else:  # Advance`. -/
def enabCostOf (plan_row : PlanBracket) (selected_plan : String) : ℚ :=
  if selected_plan = "Basic" then plan_row.enab_Basic
  else if selected_plan = "Premium" then plan_row.enab_Premium
  else plan_row.enab_Advance

/-- The technology cost chain, same shape as `enabCostOf`. -/
def techCostOf (plan_row : PlanBracket) (selected_plan : String) : ℚ :=
  if selected_plan = "Basic" then plan_row.tech_Basic
  else if selected_plan = "Premium" then plan_row.tech_Premium
  else plan_row.tech_Advance

/-- `usd_inr_rate = 85  # From Lookup_Helper sheet`. -/
def usd_inr_rate : ℚ := 85

/-- `hours_in_month = 120  # From Lookup_Helper sheet`. -/
def hours_in_month : ℚ := 120

/-- The body of the `try:` block of `calculate_costs`.  Each step mirrors the
Python statement order: real-estate lookup (when toggled on), IT-infra lookup
(when toggled on), bracket scan, enabling and technology plan costs (when
toggled on, else the `0.0` initialisation stands), total, and the hourly
conversion, whose division raises exactly when `headcount = 0`. -/
def calculate_costs_inner (headcount : ℤ) (selected_city selected_plan : String)
    (real_estate_toggle it_infra_toggle enabling_toggle technology_toggle : Bool)
    (real_estate_df it_infra_df : List CostTableRow) (plans_df : List PlanBracket) :
    Except CalcError CostResult :=
  let re_step : Except CalcError ℚ :=
    if real_estate_toggle then
      match lookupCity real_estate_df selected_city with
      | none => .error (.lookupError "real_estate" selected_city)
      | some cost_per_seat => .ok (cost_per_seat * (headcount : ℚ))
    else .ok 0
  match re_step with
  | .error e => .error e
  | .ok total_real_estate_cost =>
    let it_step : Except CalcError ℚ :=
      if it_infra_toggle then
        match lookupCity it_infra_df selected_city with
        | none => .error (.lookupError "it_infra" selected_city)
        | some cost_per_seat => .ok (cost_per_seat * (headcount : ℚ))
      else .ok 0
    match it_step with
    | .error e => .error e
    | .ok total_it_infra_cost =>
      match findBracket plans_df headcount with
      | none => .error (.noMatchingBracket headcount)
      | some plan_row =>
        let enab_cost : ℚ := if enabling_toggle then enabCostOf plan_row selected_plan else 0
        let tech_cost : ℚ := if technology_toggle then techCostOf plan_row selected_plan else 0
        let total_plan_cost : ℚ := enab_cost + tech_cost
        let total_cost : ℚ := total_real_estate_cost + total_it_infra_cost + total_plan_cost
        if headcount = 0 then .error .divisionByZero
        else .ok
          { total_real_estate_cost := total_real_estate_cost
            total_it_infra_cost := total_it_infra_cost
            enab_cost := enab_cost
            tech_cost := tech_cost
            total_cost := total_cost
            hourly_cost_per_head_usd := total_cost / (headcount : ℚ) / hours_in_month / usd_inr_rate }

/-- `calculate_costs` as a caller observes it: the `try/except` wrapper maps
every failure of the body to the all-`None` tuple, here `none`. -/
def calculate_costs (headcount : ℤ) (selected_city selected_plan : String)
    (real_estate_toggle it_infra_toggle enabling_toggle technology_toggle : Bool)
    (real_estate_df it_infra_df : List CostTableRow) (plans_df : List PlanBracket) :
    Option CostResult :=
  (calculate_costs_inner headcount selected_city selected_plan
    real_estate_toggle it_infra_toggle enabling_toggle technology_toggle
    real_estate_df it_infra_df plans_df).toOption

/-! ## Helper lemmas (shared by several claim proofs) -/

/-- The `try/except` wrapper returns a value exactly when the body does. -/
theorem toOption_eq_some_iff {ε α : Type} (e : Except ε α) (a : α) :
    e.toOption = some a ↔ e = Except.ok a := by
  cases e <;> simp [Except.toOption]

/-- Behaviour of one toggled city-table step of `calculate_costs`
when it produces a value. -/
theorem cost_step_ok (toggle : Bool) (df : List CostTableRow) (selected_city cat : String)
    (headcount : ℤ) (v : ℚ)
    (h : (if toggle then
            match lookupCity df selected_city with
            | none => Except.error (CalcError.lookupError cat selected_city)
            | some cost_per_seat => Except.ok (cost_per_seat * (headcount : ℚ))
          else Except.ok 0) = Except.ok v) :
    (toggle = true →
      ∃ c, lookupCity df selected_city = some c ∧ v = c * (headcount : ℚ)) ∧
    (toggle = false → v = 0) := by
  cases toggle with
  | false =>
      simp only [Bool.false_eq_true, if_false, Except.ok.injEq] at h
      exact ⟨fun hc => by simp at hc, fun _ => h.symm⟩
  | true =>
      refine ⟨fun _ => ?_, fun hc => by simp at hc⟩
      simp only [if_true] at h
      cases hdf : lookupCity df selected_city with
      | none => rw [hdf] at h; exact absurd h (by simp)
      | some c =>
          rw [hdf] at h
          simp only [Except.ok.injEq] at h
          exact ⟨c, rfl, h.symm⟩

/-- The bracket scan returns nothing exactly when no bracket contains the
headcount. -/
theorem findBracket_none_iff (plans_df : List PlanBracket) (headcount : ℤ) :
    findBracket plans_df headcount = none ↔
      ∀ b ∈ plans_df, ¬(b.minHC ≤ headcount ∧ headcount ≤ b.maxHC) := by
  induction plans_df with
  | nil => simp [findBracket]
  | cons b rest ih =>
      by_cases hb : b.minHC ≤ headcount ∧ headcount ≤ b.maxHC
      · simp [findBracket, hb]
      · simp only [findBracket, if_neg hb]
        rw [ih, List.forall_mem_cons]
        simp [hb]

/-- Full characterisation of a successful run of the body of
`calculate_costs`: the headcount was nonzero, each toggled-on city lookup
found a cost, some bracket matched, and the returned fields obey the
summation and conversion formulas. -/
theorem calculate_costs_inner_ok_spec
    (headcount : ℤ) (selected_city selected_plan : String)
    (real_estate_toggle it_infra_toggle enabling_toggle technology_toggle : Bool)
    (real_estate_df it_infra_df : List CostTableRow) (plans_df : List PlanBracket)
    (r : CostResult)
    (h : calculate_costs_inner headcount selected_city selected_plan
          real_estate_toggle it_infra_toggle enabling_toggle technology_toggle
          real_estate_df it_infra_df plans_df = Except.ok r) :
    headcount ≠ 0 ∧
    (real_estate_toggle = true →
      ∃ c, lookupCity real_estate_df selected_city = some c ∧
        r.total_real_estate_cost = c * (headcount : ℚ)) ∧
    (real_estate_toggle = false → r.total_real_estate_cost = 0) ∧
    (it_infra_toggle = true →
      ∃ c, lookupCity it_infra_df selected_city = some c ∧
        r.total_it_infra_cost = c * (headcount : ℚ)) ∧
    (it_infra_toggle = false → r.total_it_infra_cost = 0) ∧
    (∃ b, findBracket plans_df headcount = some b ∧
      r.enab_cost = (if enabling_toggle then enabCostOf b selected_plan else 0) ∧
      r.tech_cost = (if technology_toggle then techCostOf b selected_plan else 0)) ∧
    r.total_cost
      = r.total_real_estate_cost + r.total_it_infra_cost + (r.enab_cost + r.tech_cost) ∧
    r.hourly_cost_per_head_usd
      = r.total_cost / (headcount : ℚ) / hours_in_month / usd_inr_rate := by
  simp only [calculate_costs_inner] at h
  split at h
  · exact absurd h (by simp)
  next tre hre =>
    split at h
    · exact absurd h (by simp)
    next tit hit =>
      split at h
      · exact absurd h (by simp)
      next b hb =>
        split at h
        · exact absurd h (by simp)
        next hhc =>
          obtain ⟨hre1, hre2⟩ := cost_step_ok _ _ _ _ _ _ hre
          obtain ⟨hit1, hit2⟩ := cost_step_ok _ _ _ _ _ _ hit
          cases h
          exact ⟨hhc, hre1, hre2, hit1, hit2, ⟨b, hb, rfl, rfl⟩, rfl, rfl⟩

/-- Evaluation of `calculate_costs` on the worked example of the spec:
one real-estate row (Tier 1, CityA, 10000), one IT-infra row
(Tier 1, CityA, 5000), one bracket [1, 100] with `Enab_Basic = 2000` and
`Tech_Basic = 3000`, request headcount 10, CityA, Basic plan, all four
toggles on. -/
theorem worked_example_run :
    calculate_costs 10 "CityA" "Basic" true true true true
        [⟨"Tier 1", "CityA", 10000⟩] [⟨"Tier 1", "CityA", 5000⟩]
        [⟨1, 100, 2000, 4000, 6000, 3000, 5000, 7000⟩]
      = some ⟨100000, 50000, 2000, 3000, 155000, 155 / 102⟩ := by
  simp [calculate_costs, calculate_costs_inner, lookupCity, findBracket, enabCostOf,
    techCostOf, hours_in_month, usd_inr_rate, List.filter, Except.toOption]
  norm_num

/-! ## Claims -/

/-- C1: for every request on which `calculate_costs` returns a breakdown
(in particular the headcount is then nonzero and some bracket matched), the
returned hourly cost per head in USD equals
`(total_cost / headcount / HOURS_PER_MONTH) / USD_TO_LOCAL_RATE` with
`HOURS_PER_MONTH = 120` (`hours_in_month`) and `USD_TO_LOCAL_RATE = 85`
(`usd_inr_rate`). -/
theorem hourly_rate_formula
    (headcount : ℤ) (selected_city selected_plan : String)
    (real_estate_toggle it_infra_toggle enabling_toggle technology_toggle : Bool)
    (real_estate_df it_infra_df : List CostTableRow) (plans_df : List PlanBracket)
    (r : CostResult)
    (h : calculate_costs headcount selected_city selected_plan
          real_estate_toggle it_infra_toggle enabling_toggle technology_toggle
          real_estate_df it_infra_df plans_df = some r) :
    r.hourly_cost_per_head_usd = r.total_cost / (headcount : ℚ) / 120 / 85 ∧
    hours_in_month = 120 ∧ usd_inr_rate = 85 := by
  rw [calculate_costs, toOption_eq_some_iff] at h
  have spec := calculate_costs_inner_ok_spec _ _ _ _ _ _ _ _ _ _ _ h
  refine ⟨?_, rfl, rfl⟩
  simpa [hours_in_month, usd_inr_rate] using spec.2.2.2.2.2.2.2

/-- C1 witness: the theorem applied to the worked example of the spec. -/
theorem hourly_rate_formula_witness :
    (⟨100000, 50000, 2000, 3000, 155000, 155 / 102⟩ : CostResult).hourly_cost_per_head_usd
      = (⟨100000, 50000, 2000, 3000, 155000, 155 / 102⟩ : CostResult).total_cost
          / ((10 : ℤ) : ℚ) / 120 / 85 ∧
    hours_in_month = 120 ∧ usd_inr_rate = 85 :=
  hourly_rate_formula 10 "CityA" "Basic" true true true true
    [⟨"Tier 1", "CityA", 10000⟩] [⟨"Tier 1", "CityA", 5000⟩]
    [⟨1, 100, 2000, 4000, 6000, 3000, 5000, 7000⟩]
    ⟨100000, 50000, 2000, 3000, 155000, 155 / 102⟩ worked_example_run

/-- C2: whenever `calculate_costs` returns a breakdown, the returned total is
exactly the sum of the four returned category costs, and each category cost
is 0 when its toggle is off. -/
theorem total_cost_is_sum_of_categories
    (headcount : ℤ) (selected_city selected_plan : String)
    (real_estate_toggle it_infra_toggle enabling_toggle technology_toggle : Bool)
    (real_estate_df it_infra_df : List CostTableRow) (plans_df : List PlanBracket)
    (r : CostResult)
    (h : calculate_costs headcount selected_city selected_plan
          real_estate_toggle it_infra_toggle enabling_toggle technology_toggle
          real_estate_df it_infra_df plans_df = some r) :
    r.total_cost
      = r.total_real_estate_cost + r.total_it_infra_cost + r.enab_cost + r.tech_cost ∧
    (real_estate_toggle = false → r.total_real_estate_cost = 0) ∧
    (it_infra_toggle = false → r.total_it_infra_cost = 0) ∧
    (enabling_toggle = false → r.enab_cost = 0) ∧
    (technology_toggle = false → r.tech_cost = 0) := by
  rw [calculate_costs, toOption_eq_some_iff] at h
  have spec := calculate_costs_inner_ok_spec _ _ _ _ _ _ _ _ _ _ _ h
  obtain ⟨-, -, hre0, -, hit0, ⟨b, -, henab, htech⟩, htotal, -⟩ := spec
  refine ⟨by rw [htotal]; ring, hre0, hit0, ?_, ?_⟩
  · intro he; rw [henab, he]; simp
  · intro ht; rw [htech, ht]; simp

/-- C2 witness: the theorem applied to the worked example of the spec. -/
theorem total_cost_is_sum_of_categories_witness :
    (155000 : ℚ) = 100000 + 50000 + 2000 + 3000 ∧
    (true = false → (100000 : ℚ) = 0) ∧
    (true = false → (50000 : ℚ) = 0) ∧
    (true = false → (2000 : ℚ) = 0) ∧
    (true = false → (3000 : ℚ) = 0) :=
  total_cost_is_sum_of_categories 10 "CityA" "Basic" true true true true
    [⟨"Tier 1", "CityA", 10000⟩] [⟨"Tier 1", "CityA", 5000⟩]
    [⟨1, 100, 2000, 4000, 6000, 3000, 5000, 7000⟩]
    ⟨100000, 50000, 2000, 3000, 155000, 155 / 102⟩ worked_example_run

/-- C3: on the spec's worked example (real-estate CityA 10000, IT-infra
CityA 5000, single bracket [1, 100] with Basic enabling cost 2000 and Basic
technology cost 3000; request headcount 10, CityA, Basic, all toggles on),
`calculate_costs` returns costs 100000, 50000, 2000, 3000, total 155000,
and an hourly rate `(155000 / 10 / 120) / 85 = 155/102 ≈ 1.519608` (within
`10⁻⁶` of the 6-decimal value printed by the report). -/
theorem worked_example_cityA_basic :
    calculate_costs 10 "CityA" "Basic" true true true true
        [⟨"Tier 1", "CityA", 10000⟩] [⟨"Tier 1", "CityA", 5000⟩]
        [⟨1, 100, 2000, 4000, 6000, 3000, 5000, 7000⟩]
      = some ⟨100000, 50000, 2000, 3000, 155000, (155000 / 10 / 120) / 85⟩ ∧
    ((155000 : ℚ) / 10 / 120) / 85 = 155 / 102 ∧
    |((155000 : ℚ) / 10 / 120) / 85 - 1519608 / 1000000| < 1 / 1000000 := by
  refine ⟨?_, by norm_num, by rw [abs_sub_comm]; rw [abs_of_nonneg (by norm_num)]; norm_num⟩
  rw [worked_example_run]
  norm_num

/-- C4: bracket selection is deterministic first-match.  The scan of
`calculate_costs` (`findBracket`, used verbatim inside
`calculate_costs_inner`) is exactly `List.find?` with containment
`min_headcount ≤ headcount ≤ max_headcount`, i.e. the first bracket in
table order whose range contains the headcount; in particular with
overlapping brackets [1, 50] then [40, 100] and headcount 45, the first
bracket is always selected, whatever the cost columns hold. -/
theorem bracket_selection_first_match :
    (∀ (plans_df : List PlanBracket) (headcount : ℤ),
        findBracket plans_df headcount
          = plans_df.find? fun b => decide (b.minHC ≤ headcount ∧ headcount ≤ b.maxHC)) ∧
    (∀ c1 c2 c3 c4 c5 c6 d1 d2 d3 d4 d5 d6 : ℚ,
        findBracket [⟨1, 50, c1, c2, c3, c4, c5, c6⟩, ⟨40, 100, d1, d2, d3, d4, d5, d6⟩] 45
          = some ⟨1, 50, c1, c2, c3, c4, c5, c6⟩) := by
  constructor
  · intro plans_df headcount
    induction plans_df with
    | nil => rfl
    | cons b rest ih =>
        by_cases hb : b.minHC ≤ headcount ∧ headcount ≤ b.maxHC <;>
          simp [findBracket, List.find?, hb, ih]
  · intro c1 c2 c3 c4 c5 c6 d1 d2 d3 d4 d5 d6
    simp only [findBracket]
    norm_num

/-- C5: when no bracket contains the headcount (and the toggled-on city
lookups themselves succeed, so that control reaches the bracket scan), the
body of `calculate_costs` fails with the no-matching-bracket error and the
whole call returns nothing — no partial breakdown.  The enabling and
technology toggles are universally quantified, so the failure occurs in
particular when both are off. -/
theorem no_matching_bracket_aborts
    (headcount : ℤ) (selected_city selected_plan : String)
    (real_estate_toggle it_infra_toggle enabling_toggle technology_toggle : Bool)
    (real_estate_df it_infra_df : List CostTableRow) (plans_df : List PlanBracket)
    (hno : ∀ b ∈ plans_df, ¬(b.minHC ≤ headcount ∧ headcount ≤ b.maxHC)) :
    calculate_costs headcount selected_city selected_plan
        real_estate_toggle it_infra_toggle enabling_toggle technology_toggle
        real_estate_df it_infra_df plans_df
      = none ∧
    ((real_estate_toggle = true → (lookupCity real_estate_df selected_city).isSome = true) →
     (it_infra_toggle = true → (lookupCity it_infra_df selected_city).isSome = true) →
     calculate_costs_inner headcount selected_city selected_plan
        real_estate_toggle it_infra_toggle enabling_toggle technology_toggle
        real_estate_df it_infra_df plans_df
      = Except.error (CalcError.noMatchingBracket headcount)) := by
  have hfb : findBracket plans_df headcount = none := (findBracket_none_iff _ _).mpr hno
  constructor
  · simp only [calculate_costs, calculate_costs_inner, hfb]
    split
    · rfl
    · split
      · rfl
      · rfl
  · intro hre hit
    cases real_estate_toggle with
    | false =>
        cases it_infra_toggle with
        | false => simp [calculate_costs_inner, hfb]
        | true =>
            obtain ⟨c2, hc2⟩ := Option.isSome_iff_exists.mp (hit rfl)
            simp [calculate_costs_inner, hfb, hc2]
    | true =>
        obtain ⟨c1, hc1⟩ := Option.isSome_iff_exists.mp (hre rfl)
        cases it_infra_toggle with
        | false => simp [calculate_costs_inner, hfb, hc1]
        | true =>
            obtain ⟨c2, hc2⟩ := Option.isSome_iff_exists.mp (hit rfl)
            simp [calculate_costs_inner, hfb, hc1, hc2]

/-- C5 witness: headcount 500 lies outside the single bracket [1, 100]; the
city lookups are toggled on and succeed, the enabling and technology toggles
are off, and the whole computation still fails, the body with
`noMatchingBracket 500`. -/
theorem no_matching_bracket_aborts_witness :
    calculate_costs 500 "CityA" "Basic" true true false false
        [⟨"Tier 1", "CityA", 10000⟩] [⟨"Tier 1", "CityA", 5000⟩]
        [⟨1, 100, 2000, 4000, 6000, 3000, 5000, 7000⟩]
      = none ∧
    ((true = true → (lookupCity [⟨"Tier 1", "CityA", 10000⟩] "CityA").isSome = true) →
     (true = true → (lookupCity [⟨"Tier 1", "CityA", 5000⟩] "CityA").isSome = true) →
     calculate_costs_inner 500 "CityA" "Basic" true true false false
        [⟨"Tier 1", "CityA", 10000⟩] [⟨"Tier 1", "CityA", 5000⟩]
        [⟨1, 100, 2000, 4000, 6000, 3000, 5000, 7000⟩]
      = Except.error (CalcError.noMatchingBracket 500)) :=
  no_matching_bracket_aborts 500 "CityA" "Basic" true true false false
    [⟨"Tier 1", "CityA", 10000⟩] [⟨"Tier 1", "CityA", 5000⟩]
    [⟨1, 100, 2000, 4000, 6000, 3000, 5000, 7000⟩]
    (by simp)

/-- C6: if some category toggle (real estate or IT infrastructure) is on
and the requested city has no row in that category's table, the body of
`calculate_costs` fails with a lookup error (for one of the two categories,
the earlier one in evaluation order if both fail) and the whole call
returns nothing — never a breakdown with that category silently zeroed. -/
theorem missing_city_lookup_fails
    (headcount : ℤ) (selected_city selected_plan : String)
    (real_estate_toggle it_infra_toggle enabling_toggle technology_toggle : Bool)
    (real_estate_df it_infra_df : List CostTableRow) (plans_df : List PlanBracket)
    (hmiss : (real_estate_toggle = true ∧ lookupCity real_estate_df selected_city = none) ∨
             (it_infra_toggle = true ∧ lookupCity it_infra_df selected_city = none)) :
    (∃ cat, calculate_costs_inner headcount selected_city selected_plan
        real_estate_toggle it_infra_toggle enabling_toggle technology_toggle
        real_estate_df it_infra_df plans_df
      = Except.error (CalcError.lookupError cat selected_city)) ∧
    calculate_costs headcount selected_city selected_plan
        real_estate_toggle it_infra_toggle enabling_toggle technology_toggle
        real_estate_df it_infra_df plans_df
      = none := by
  have key : ∃ cat, calculate_costs_inner headcount selected_city selected_plan
      real_estate_toggle it_infra_toggle enabling_toggle technology_toggle
      real_estate_df it_infra_df plans_df
      = Except.error (CalcError.lookupError cat selected_city) := by
    rcases hmiss with ⟨hrt, hnone⟩ | ⟨hitt, hnone⟩
    · exact ⟨"real_estate", by simp [calculate_costs_inner, hrt, hnone]⟩
    · cases hrt : real_estate_toggle with
      | false =>
          exact ⟨"it_infra", by simp [calculate_costs_inner, hrt, hitt, hnone]⟩
      | true =>
          cases hre2 : lookupCity real_estate_df selected_city with
          | none =>
              exact ⟨"real_estate", by simp [calculate_costs_inner, hrt, hre2]⟩
          | some c =>
              exact ⟨"it_infra", by simp [calculate_costs_inner, hrt, hre2, hitt, hnone]⟩
  obtain ⟨cat, hcat⟩ := key
  exact ⟨⟨cat, hcat⟩, by simp [calculate_costs, hcat, Except.toOption]⟩

/-- C6 witness: real-estate toggle on, CityB absent from the real-estate
table: the body fails with a lookup error and the call returns nothing. -/
theorem missing_city_lookup_fails_witness :
    (∃ cat, calculate_costs_inner 10 "CityB" "Basic" true true true true
        [⟨"Tier 1", "CityA", 10000⟩] [⟨"Tier 1", "CityA", 5000⟩]
        [⟨1, 100, 2000, 4000, 6000, 3000, 5000, 7000⟩]
      = Except.error (CalcError.lookupError cat "CityB")) ∧
    calculate_costs 10 "CityB" "Basic" true true true true
        [⟨"Tier 1", "CityA", 10000⟩] [⟨"Tier 1", "CityA", 5000⟩]
        [⟨1, 100, 2000, 4000, 6000, 3000, 5000, 7000⟩]
      = none :=
  missing_city_lookup_fails 10 "CityB" "Basic" true true true true
    [⟨"Tier 1", "CityA", 10000⟩] [⟨"Tier 1", "CityA", 5000⟩]
    [⟨1, 100, 2000, 4000, 6000, 3000, 5000, 7000⟩]
    (Or.inl ⟨rfl, by simp [lookupCity, List.filter]⟩)

/-- C7 counterexample: `calculate_costs` contains no input validation and no
`InvalidInputError` exists anywhere in `app.py`.  With headcount 0 and a
bracket [0, 100] that contains 0, the body of `calculate_costs` runs all the
way to `total_cost / headcount / hours_in_month` and performs the division
by zero (Python raises `ZeroDivisionError` there, which the blanket
`except` converts to the `None` tuple): the failure is the division-by-zero
error, not an `InvalidInputError`, refuting both halves of the claim at
this concrete input. -/
theorem headcount_zero_division_reached :
    calculate_costs_inner 0 "CityA" "Basic" true true true true
        [⟨"Tier 1", "CityA", 10000⟩] [⟨"Tier 1", "CityA", 5000⟩]
        [⟨0, 100, 2000, 4000, 6000, 3000, 5000, 7000⟩]
      = Except.error CalcError.divisionByZero := by
  simp [calculate_costs_inner, lookupCity, findBracket, List.filter]

/-- C7 amended: a request with headcount 0 always fails — `calculate_costs`
returns no breakdown for any tables, city, plan or toggles — but not through
an `InvalidInputError` (the code has none): either no bracket contains 0, or
a toggled-on lookup fails, or the computation reaches the hourly conversion
and the division by zero there is caught by the blanket exception handler. -/
theorem headcount_zero_always_fails
    (selected_city selected_plan : String)
    (real_estate_toggle it_infra_toggle enabling_toggle technology_toggle : Bool)
    (real_estate_df it_infra_df : List CostTableRow) (plans_df : List PlanBracket) :
    calculate_costs 0 selected_city selected_plan
        real_estate_toggle it_infra_toggle enabling_toggle technology_toggle
        real_estate_df it_infra_df plans_df
      = none := by
  simp only [calculate_costs, calculate_costs_inner]
  split
  · rfl
  · split
    · rfl
    · split
      · rfl
      · simp [Except.toOption]

/-- C8 counterexample: a request whose plan name is `"Gold"` — not one of
Basic, Premium, Advance — is not rejected: the `else:  # Advance` branches
price it under the bracket's `Enab_Advance = 6000` and `Tech_Advance = 7000`
fields and the computation succeeds, refuting the claim at this concrete
input. -/
theorem unknown_plan_priced_as_advance :
    calculate_costs 10 "CityA" "Gold" true true true true
        [⟨"Tier 1", "CityA", 10000⟩] [⟨"Tier 1", "CityA", 5000⟩]
        [⟨1, 100, 2000, 4000, 6000, 3000, 5000, 7000⟩]
      = some ⟨100000, 50000, 6000, 7000, 163000, 163000 / 10 / 120 / 85⟩ := by
  simp [calculate_costs, calculate_costs_inner, lookupCity, findBracket, enabCostOf,
    techCostOf, hours_in_month, usd_inr_rate, List.filter, Except.toOption]
  norm_num

/-- C8 amended: a request whose plan name is neither `"Basic"` nor
`"Premium"` — including any unknown name — is priced under the Advance
plan's cost fields by the final `else` branches of the plan-cost selection;
no `InvalidInputError` is raised (none exists in the code). -/
theorem unknown_plan_uses_advance_fields
    (plan_row : PlanBracket) (selected_plan : String)
    (h1 : selected_plan ≠ "Basic") (h2 : selected_plan ≠ "Premium") :
    enabCostOf plan_row selected_plan = plan_row.enab_Advance ∧
    techCostOf plan_row selected_plan = plan_row.tech_Advance := by
  simp [enabCostOf, techCostOf, h1, h2]

/-- C8 witness: the amended theorem applied to the plan name `"Gold"`. -/
theorem unknown_plan_uses_advance_fields_witness :
    enabCostOf ⟨1, 100, 2000, 4000, 6000, 3000, 5000, 7000⟩ "Gold" = 6000 ∧
    techCostOf ⟨1, 100, 2000, 4000, 6000, 3000, 5000, 7000⟩ "Gold" = 7000 :=
  unknown_plan_uses_advance_fields ⟨1, 100, 2000, 4000, 6000, 3000, 5000, 7000⟩ "Gold"
    (by decide) (by decide)

/-- C9: city lookup (`lookupCity`, used for both the real-estate and
IT-infra tables) matches by city alone — the tier field plays no part — and
equals `List.find?` on the city, so when several rows share the requested
city the first row in table order supplies the per-seat cost; in particular
with two rows for the same city (any tiers), the first row's cost is
returned and the duplicate is ignored. -/
theorem city_lookup_first_match_ignores_tier :
    (∀ (df : List CostTableRow) (selected_city : String),
        lookupCity df selected_city
          = (df.find? fun row => decide (row.city = selected_city)).map
              fun row => row.cost_INR_PM) ∧
    (∀ (tier1 tier2 c : String) (cost1 cost2 : ℚ) (rest : List CostTableRow),
        lookupCity (⟨tier1, c, cost1⟩ :: ⟨tier2, c, cost2⟩ :: rest) c = some cost1) := by
  constructor
  · intro df selected_city
    induction df with
    | nil => rfl
    | cons row rest ih =>
        by_cases hr : row.city = selected_city <;>
          simp [lookupCity, List.filter_cons, List.find?, hr, ← ih]
  · intro tier1 tier2 c cost1 cost2 rest
    simp [lookupCity, List.filter_cons]

/-- C10: when a category toggle is off, that category's table is never
consulted: the result of `calculate_costs` is identical for any two
real-estate tables when the real-estate toggle is off (and likewise for the
IT-infra table), and concretely a request with both city-table toggles off
succeeds against empty tables with those categories costed at 0, provided
the bracket match succeeds. -/
theorem toggle_off_table_not_consulted :
    (∀ (headcount : ℤ) (selected_city selected_plan : String)
        (it_infra_toggle enabling_toggle technology_toggle : Bool)
        (real_estate_df real_estate_df2 it_infra_df : List CostTableRow)
        (plans_df : List PlanBracket),
        calculate_costs_inner headcount selected_city selected_plan
            false it_infra_toggle enabling_toggle technology_toggle
            real_estate_df it_infra_df plans_df
          = calculate_costs_inner headcount selected_city selected_plan
              false it_infra_toggle enabling_toggle technology_toggle
              real_estate_df2 it_infra_df plans_df) ∧
    (∀ (headcount : ℤ) (selected_city selected_plan : String)
        (real_estate_toggle enabling_toggle technology_toggle : Bool)
        (real_estate_df it_infra_df it_infra_df2 : List CostTableRow)
        (plans_df : List PlanBracket),
        calculate_costs_inner headcount selected_city selected_plan
            real_estate_toggle false enabling_toggle technology_toggle
            real_estate_df it_infra_df plans_df
          = calculate_costs_inner headcount selected_city selected_plan
              real_estate_toggle false enabling_toggle technology_toggle
              real_estate_df it_infra_df2 plans_df) ∧
    calculate_costs 10 "CityA" "Basic" false false true true [] []
        [⟨1, 100, 2000, 4000, 6000, 3000, 5000, 7000⟩]
      = some ⟨0, 0, 2000, 3000, 5000, 5000 / 10 / 120 / 85⟩ := by
  refine ⟨fun _ _ _ _ _ _ _ _ _ _ => rfl, fun _ _ _ _ _ _ _ _ _ _ => rfl, ?_⟩
  simp [calculate_costs, calculate_costs_inner, findBracket, enabCostOf, techCostOf,
    hours_in_month, usd_inr_rate, Except.toOption]
  norm_num

end GCCCal
